import Mathlib

/-!
Shallow embedding of the university domain model (`src/annotation.ts`).

Modelling conventions:
* TypeScript `number` fields that carry scores/credits are modelled as `ℚ`;
  the auto-increment person identifier is modelled as `Nat`.
* JavaScript object identity (`===`, `includes`) is modelled as structural
  equality; constructed persons are distinguished by their globally unique id.
* A method that can `throw` is modelled as returning the updated object
  together with `Option JsError`; on a throw the object component is the state
  at the moment of the throw (all throws in this code happen before mutation).
* The divide-by-zero reachable in `getAverageGroupScore` is modelled by a
  JavaScript-number result type with `nan`/infinity constructors and a
  division function with JavaScript semantics on those values.
-/

namespace UnivTs

/-- Result type of JavaScript floating-point expressions where a non-finite
outcome is reachable: either a finite value, `NaN`, or a signed infinity. -/
inductive JsNum where
  | val (q : ℚ)
  | nan
  | inf
  | ninf
  deriving DecidableEq, Repr

/-- JavaScript division of two finite numbers: `0 / 0 = NaN`,
`q / 0 = ±Infinity` for `q ≠ 0`, ordinary division otherwise. -/
def jsDiv (a b : ℚ) : JsNum :=
  if b = 0 then
    if a = 0 then JsNum.nan
    else if 0 < a then JsNum.inf
    else JsNum.ninf
  else JsNum.val (a / b)

/-- A thrown JavaScript `Error`: its `name` tag and its message. The domain
kind `UniversityError` sets `name := "UniversityError"`; a plain `Error` keeps
`name := "Error"`. -/
structure JsError where
  name : String
  message : String
  deriving DecidableEq, Repr

/-- Source `new UniversityError(message)`: an `Error` whose `name` is
overwritten to `"UniversityError"` in the constructor. -/
def UniversityError (message : String) : JsError :=
  { name := "UniversityError", message := message }

/-- A plain `new Error(message)`. -/
def PlainError (message : String) : JsError :=
  { name := "Error", message := message }

/-- The `ContactInfo` shape: `{ email, phone }`. -/
structure ContactInfo where
  email : String
  phone : String
  deriving DecidableEq, Repr

/-- Source `defaultContact`. -/
def defaultContact : ContactInfo :=
  { email := "info@university.com", phone := "+380955555555" }

/-- A calendar date as the `age` getter reads it off a JavaScript `Date`:
`getFullYear()`, `getMonth()` (0-based month index 0..11), `getDate()`
(day of month 1..31). -/
structure SimpleDate where
  year : Int
  month : Nat
  day : Nat
  deriving DecidableEq, Repr

/-- Source `FullPersonInfo = PersonInfo & ContactInfo`: the constructor input bundle. -/
structure FullPersonInfo where
  firstName : String
  lastName : String
  birthDay : SimpleDate
  gender : String
  email : String
  phone : String
  deriving DecidableEq, Repr

/-- Source `class Course`: name, credits, discipline; no mutators. -/
structure Course where
  name : String
  credits : ℚ
  discipline : String
  deriving DecidableEq, Repr

/-- The fields of `class Person`. The static counter `Person.nextId` is
modelled as explicit state threaded through `Person.create`. -/
structure Person where
  firstName : String
  lastName : String
  birthDay : SimpleDate
  id : Nat
  gender : String
  contactInfo : ContactInfo
  role : String
  deriving DecidableEq, Repr

/-- The `Person` constructor: copies the info fields, assigns
`id = Person.nextId++`, and stores the role. Returns the constructed person
together with the updated value of the static `nextId` counter. -/
def Person.create (info : FullPersonInfo) (role : String) (nextId : Nat) :
    Person × Nat :=
  ({ firstName := info.firstName
     lastName := info.lastName
     birthDay := info.birthDay
     id := nextId
     gender := info.gender
     contactInfo := { email := info.email, phone := info.phone }
     role := role }, nextId + 1)

/-- The `age` getter, with the impure `new Date()` made an explicit `today`
argument: year difference, decremented when the current month is earlier than
the birth month, or the months agree and the current day is earlier. -/
def Person.age (p : Person) (today : SimpleDate) : Int :=
  let age := today.year - p.birthDay.year
  let monthDiff : Int := (today.month : Int) - (p.birthDay.month : Int)
  if monthDiff < 0 ∨ (monthDiff = 0 ∧ today.day < p.birthDay.day) then age - 1
  else age

/-- Source `class Teacher extends Person`: specializations and assigned courses. -/
structure Teacher extends Person where
  specializations : List String
  courses : List Course
  deriving DecidableEq, Repr

/-- The `Teacher` constructor: `super(info, Roles.teacher)`, then stores the
specializations; `courses` starts empty. -/
def Teacher.create (info : FullPersonInfo) (specializations : List String)
    (nextId : Nat) : Teacher × Nat :=
  let pn := Person.create info "teacher" nextId
  ({ toPerson := pn.1, specializations := specializations, courses := [] },
   pn.2)

/-- Source `AcademicPerformance = { totalCredits, gpa }`. -/
structure AcademicPerformance where
  totalCredits : ℚ
  gpa : ℚ
  deriving DecidableEq, Repr

/-- Source `class Student extends Person`: performance record, enrolled courses,
academic status string. -/
structure Student extends Person where
  academicPerformance : AcademicPerformance
  enrolledCourses : List Course
  status : String
  deriving DecidableEq, Repr

/-- The `Student` constructor: `super(info, Roles.student)`, performance
initialised to `{ totalCredits: 0, gpa: 0 }`, no enrolled courses, status
`active`. -/
def Student.create (info : FullPersonInfo) (nextId : Nat) : Student × Nat :=
  let pn := Person.create info "student" nextId
  ({ toPerson := pn.1
     academicPerformance := { totalCredits := 0, gpa := 0 }
     enrolledCourses := []
     status := "active" }, pn.2)

/-- Source `Student.enrollCourse`: throws the domain error when the status is not
`active`; otherwise appends the course and adds its credits. -/
def Student.enrollCourse (s : Student) (course : Course) :
    Student × Option JsError :=
  if s.status ≠ "active" then
    (s, some (UniversityError "Cannot enroll: Student is not in active status"))
  else
    ({ s with
        enrolledCourses := s.enrolledCourses ++ [course]
        academicPerformance :=
          { s.academicPerformance with
              totalCredits := s.academicPerformance.totalCredits +
                course.credits } }, none)

/-- Source `Student.getAverageScore`: returns the stored gpa. -/
def Student.getAverageScore (s : Student) : ℚ :=
  s.academicPerformance.gpa

/-- Source `Student.updateAcademicStatus`: unconditional status overwrite. -/
def Student.updateAcademicStatus (s : Student) (newStatus : String) : Student :=
  { s with status := newStatus }

/-- Source `type People = Person | Teacher | Student`. -/
inductive People where
  | person (p : Person)
  | teacher (t : Teacher)
  | student (s : Student)
  deriving DecidableEq, Repr

/-- The `role` field of a value of the `People` union. -/
def People.role : People → String
  | .person p => p.role
  | .teacher t => t.role
  | .student s => s.role

/-- The `id` field of a value of the `People` union. -/
def People.id : People → Nat
  | .person p => p.id
  | .teacher t => t.id
  | .student s => s.id

/-- Source `class Group`: name, one course, one teacher, roster of students. The
roster starts empty; `Group.create` is the constructor. -/
structure Group where
  name : String
  course : Course
  teacher : Teacher
  students : List Student
  deriving DecidableEq, Repr

/-- The `Group` constructor: stores name/course/teacher, empty roster. -/
def Group.create (name : String) (course : Course) (teacher : Teacher) :
    Group :=
  { name := name, course := course, teacher := teacher, students := [] }

/-- Source `Group.addStudent`: throws the domain error when `students.includes`
finds the same student (object identity, here structural equality); otherwise
pushes the student. -/
def Group.addStudent (g : Group) (student : Student) :
    Group × Option JsError :=
  if student ∈ g.students then
    (g, some (UniversityError "Student is already in the group"))
  else
    ({ g with students := g.students ++ [student] }, none)

/-- Source `Group.removeStudentById`: `findIndex` on the id, throw the domain error
on `-1`, otherwise `splice(index, 1)`. -/
def Group.removeStudentById (g : Group) (id : Nat) : Group × Option JsError :=
  match g.students.findIdx? (fun student => student.id == id) with
  | none => (g, some (UniversityError "Student not found in group"))
  | some index => ({ g with students := g.students.eraseIdx index }, none)

/-- Source `Group.getAverageGroupScore`: returns 0 when the roster length is truthy
(non-zero); otherwise reduces the roster to a score total and divides by the
roster length. -/
def Group.getAverageGroupScore (g : Group) : JsNum :=
  if g.students.length ≠ 0 then JsNum.val 0
  else
    let totalScore :=
      g.students.foldl (fun sum student => sum + student.getAverageScore) 0
    jsDiv totalScore (g.students.length : ℚ)

/-- Source `Group.getStudents`: defensive copy of the roster. -/
def Group.getStudents (g : Group) : List Student :=
  g.students

/-- Source `class University`: name plus the three collections. -/
structure University where
  name : String
  courses : List Course
  groups : List Group
  people : List People
  deriving DecidableEq, Repr

/-- The `University` constructor: a name, all collections empty. -/
def University.create (name : String) : University :=
  { name := name, courses := [], groups := [], people := [] }

/-- Source `University.addCourse`: push onto `courses`. -/
def University.addCourse (u : University) (course : Course) : University :=
  { u with courses := u.courses ++ [course] }

/-- Source `University.addGroup`: push onto `groups`. -/
def University.addGroup (u : University) (group : Group) : University :=
  { u with groups := u.groups ++ [group] }

/-- Source `University.addPerson`: push onto `people`. -/
def University.addPerson (u : University) (person : People) : University :=
  { u with people := u.people ++ [person] }

/-- Source `University.findGroupByCourse`: `find` over `groups`, comparing the
course reference. -/
def University.findGroupByCourse (u : University) (course : Course) :
    Option Group :=
  u.groups.find? (fun group => group.course == course)

/-- Source `University.getAllPeopleByRole`: switch on the role string; filter for
the two known roles, `assertNeverRole` (a plain `Error`) otherwise. -/
def University.getAllPeopleByRole (u : University) (role : String) :
    Except JsError (List People) :=
  if role = "student" then
    .ok (u.people.filter (fun person => person.role == "student"))
  else if role = "teacher" then
    .ok (u.people.filter (fun person => person.role == "teacher"))
  else .error (PlainError ("Unhandled role: " ++ role))

/-- One constructor invocation in a sequence of `Person`/`Teacher`/`Student`
constructions: which class is constructed and with which arguments. -/
inductive ConstructReq where
  | base (info : FullPersonInfo) (role : String)
  | teacher (info : FullPersonInfo) (specializations : List String)
  | student (info : FullPersonInfo)
  deriving Repr

/-- Run one constructor invocation against the current value of the static
`Person.nextId` counter. -/
def constructOne : ConstructReq → Nat → People × Nat
  | .base info role, n =>
    let pn := Person.create info role n
    (.person pn.1, pn.2)
  | .teacher info specs, n =>
    let tn := Teacher.create info specs n
    (.teacher tn.1, tn.2)
  | .student info, n =>
    let sn := Student.create info n
    (.student sn.1, sn.2)

/-- Run a sequence of constructor invocations, threading the static
`Person.nextId` counter; the counter starts at 1 in a fresh process. -/
def constructSeq : List ConstructReq → Nat → List People × Nat
  | [], n => ([], n)
  | r :: rs, n =>
    let first := constructOne r n
    let rest := constructSeq rs first.2
    (first.1 :: rest.1, rest.2)

/-- Concrete constructor input used by witnesses: birth date 2000-06-15
(JavaScript month index 5 = June). -/
def infoEx : FullPersonInfo :=
  { firstName := "Ann"
    lastName := "Lee"
    birthDay := { year := 2000, month := 5, day := 15 }
    gender := "f"
    email := defaultContact.email
    phone := defaultContact.phone }

/-- A concrete person born 2000-06-15, used by the age examples. -/
def personEx : Person :=
  (Person.create infoEx "student" 1).1

/-- A fresh concrete student (status `active`, zero credits). -/
def studentEx : Student :=
  (Student.create infoEx 1).1

/-- A second fresh concrete student with a different id. -/
def studentEx2 : Student :=
  (Student.create infoEx 2).1

/-- The first student after moving to `academicLeave`. -/
def studentOnLeave : Student :=
  studentEx.updateAcademicStatus "academicLeave"

/-- A concrete 5-credit course. -/
def courseEx : Course :=
  { name := "Math", credits := 5, discipline := "STEM" }

/-- A concrete teacher. -/
def teacherEx : Teacher :=
  (Teacher.create infoEx [] 3).1

/-- A concrete group with an empty roster. -/
def groupEx : Group :=
  Group.create "G1" courseEx teacherEx

/-- A concrete group whose roster holds the second student only. -/
def groupEx1 : Group :=
  (groupEx.addStudent studentEx2).1

/-! ## Theorems -/

/-- C1: for every `Group`, `getAverageGroupScore` returns 0 whenever the
roster is non-empty, and on an empty roster it attempts the reduce-based
average, dividing the total 0 by the length 0, yielding `NaN`. -/
theorem getAverageGroupScore_inverted_guard (g : Group) :
    g.getAverageGroupScore =
      if g.students = [] then JsNum.nan else JsNum.val 0 := by
  rcases h : g.students with _ | ⟨a, l⟩ <;>
    simp [Group.getAverageGroupScore, h, jsDiv]

/-- C3: `enrollCourse` on a student whose status is not `active` throws the
domain error "Cannot enroll: Student is not in active status" and leaves the
student (its `enrolledCourses` and `totalCredits` in particular)
unchanged. -/
theorem enrollCourse_inactive (s : Student) (c : Course)
    (h : s.status ≠ "active") :
    s.enrollCourse c =
      (s,
        some
          (UniversityError "Cannot enroll: Student is not in active status")) := by
  simp [Student.enrollCourse, h]

/-- Witness for C3: a concrete student on `academicLeave`. -/
theorem enrollCourse_inactive_witness :
    studentOnLeave.status ≠ "active" ∧
      studentOnLeave.enrollCourse courseEx =
        (studentOnLeave,
          some
            (UniversityError
              "Cannot enroll: Student is not in active status")) :=
  ⟨by decide, enrollCourse_inactive studentOnLeave courseEx (by decide)⟩

/-- C4: `enrollCourse` on an active student succeeds, appends the course to
`enrolledCourses`, adds exactly `course.credits` to `totalCredits`, and a
second enrolment of the same course adds the credits again (no duplicate
check). -/
theorem enrollCourse_active (s : Student) (c : Course)
    (h : s.status = "active") :
    (s.enrollCourse c).2 = none ∧
    (s.enrollCourse c).1.enrolledCourses = s.enrolledCourses ++ [c] ∧
    (s.enrollCourse c).1.academicPerformance.totalCredits =
      s.academicPerformance.totalCredits + c.credits ∧
    ((s.enrollCourse c).1.enrollCourse c).1.academicPerformance.totalCredits =
      s.academicPerformance.totalCredits + c.credits + c.credits := by
  simp [Student.enrollCourse, h]

/-- Witness for C4: a fresh student (0 credits) and a 5-credit course;
enrolment raises `totalCredits` to `0 + 5`, re-enrolment to `0 + 5 + 5`. -/
theorem enrollCourse_active_witness :
    studentEx.status = "active" ∧
    (studentEx.enrollCourse courseEx).2 = none ∧
    (studentEx.enrollCourse courseEx).1.academicPerformance.totalCredits =
      studentEx.academicPerformance.totalCredits + courseEx.credits ∧
    ((studentEx.enrollCourse courseEx).1.enrollCourse
          courseEx).1.academicPerformance.totalCredits =
      studentEx.academicPerformance.totalCredits + courseEx.credits +
        courseEx.credits ∧
    studentEx.academicPerformance.totalCredits = 0 ∧ courseEx.credits = 5 :=
  ⟨rfl, (enrollCourse_active studentEx courseEx rfl).1,
    (enrollCourse_active studentEx courseEx rfl).2.2.1,
    (enrollCourse_active studentEx courseEx rfl).2.2.2, by decide, by decide⟩

/-- C5: `addStudent` throws the domain error "Student is already in the
group" exactly when the same student is already in the roster, leaving the
roster unchanged, and appends otherwise; adding the same student twice to a
fresh group succeeds once, fails the second time, and leaves roster length
1. -/
theorem addStudent_identity_guard (g : Group) (st : Student) :
    (g.addStudent st =
      if st ∈ g.students then
        (g, some (UniversityError "Student is already in the group"))
      else ({ g with students := g.students ++ [st] }, none)) ∧
    ∀ nm c t,
      ((Group.create nm c t).addStudent st).2 = none ∧
      (((Group.create nm c t).addStudent st).1.addStudent st).2 =
        some (UniversityError "Student is already in the group") ∧
      (((Group.create nm c t).addStudent st).1.addStudent
            st).1.students.length = 1 := by
  refine ⟨rfl, fun nm c t => ?_⟩
  simp [Group.create, Group.addStudent]

/-- C9: each of `addCourse`, `addGroup`, `addPerson` appends its argument to
exactly one collection and leaves the other two collections and the
university name unchanged. -/
theorem add_methods_frame (u : University) (c : Course) (g : Group)
    (p : People) :
    ((u.addCourse c).courses = u.courses ++ [c] ∧
      (u.addCourse c).groups = u.groups ∧
      (u.addCourse c).people = u.people ∧
      (u.addCourse c).name = u.name) ∧
    ((u.addGroup g).groups = u.groups ++ [g] ∧
      (u.addGroup g).courses = u.courses ∧
      (u.addGroup g).people = u.people ∧
      (u.addGroup g).name = u.name) ∧
    ((u.addPerson p).people = u.people ++ [p] ∧
      (u.addPerson p).courses = u.courses ∧
      (u.addPerson p).groups = u.groups ∧
      (u.addPerson p).name = u.name) :=
  ⟨⟨rfl, rfl, rfl, rfl⟩, ⟨rfl, rfl, rfl, rfl⟩, ⟨rfl, rfl, rfl, rfl⟩⟩

/-- C2: `getAllPeopleByRole` returns exactly the people whose `role` field
equals the given role, preserving insertion order, when the role is exactly
"student" or "teacher"; any other role string yields a plain `Error`
("Unhandled role: …"), not a `UniversityError`. -/
theorem getAllPeopleByRole_spec (u : University) (role : String) :
    (u.getAllPeopleByRole role =
      if role = "student" ∨ role = "teacher" then
        .ok (u.people.filter (fun person => person.role == role))
      else .error (PlainError ("Unhandled role: " ++ role))) ∧
    (u.people.filter (fun person => person.role == role)).Sublist u.people ∧
    ∀ person,
      person ∈ u.people.filter (fun person => person.role == role) ↔
        person ∈ u.people ∧ person.role = role := by
  refine ⟨?_, List.filter_sublist _, fun person => by simp [List.mem_filter]⟩
  by_cases h1 : role = "student"
  · subst h1; simp [University.getAllPeopleByRole]
  · by_cases h2 : role = "teacher"
    · subst h2; simp [University.getAllPeopleByRole]
    · simp [University.getAllPeopleByRole, h1, h2]

/-- Id and counter behaviour of a single constructor invocation: the
constructed person receives the current counter value and the counter is
incremented by one, whatever the constructed class. -/
theorem constructOne_id (r : ConstructReq) (n : Nat) :
    (constructOne r n).1.id = n ∧ (constructOne r n).2 = n + 1 := by
  cases r <;>
    simp [constructOne, Person.create, Teacher.create, Student.create,
      People.id]

/-- The ids handed out by a construction sequence started at counter value
`n` are exactly `n, n+1, …`, and the counter advances by the number of
constructions. -/
theorem constructSeq_ids (reqs : List ConstructReq) (n : Nat) :
    (constructSeq reqs n).1.map People.id = List.range' n reqs.length ∧
    (constructSeq reqs n).2 = n + reqs.length := by
  induction reqs generalizing n with
  | nil => simp [constructSeq]
  | cons r rs ih =>
    have h1 := constructOne_id r n
    have h2 := ih (n + 1)
    simp only [constructSeq, List.map_cons, List.length_cons,
      List.range'_succ, h1.1, h1.2, h2.1, h2.2]
    exact ⟨trivial, by omega⟩

/-- C6: over any sequence of `Person`/`Teacher`/`Student` constructions in
one process (counter starting at 1), the assigned identifiers are exactly
1, 2, …, hence strictly increasing from 1, never reused, and no two people
share an id, regardless of role. -/
theorem person_ids_strictly_increasing (reqs : List ConstructReq) :
    (constructSeq reqs 1).1.map People.id = List.range' 1 reqs.length ∧
    ((constructSeq reqs 1).1.map People.id).Pairwise (· < ·) ∧
    ((constructSeq reqs 1).1.map People.id).Nodup := by
  have h := (constructSeq_ids reqs 1).1
  exact ⟨h, h ▸ List.pairwise_lt_range' 1 reqs.length,
    h ▸ List.nodup_range' 1 reqs.length⟩

/-- C7: `age` is the calendar-year difference minus one exactly when the
current (month, day) pair is lexicographically before the birth (month,
day) pair; birth 2000-06-15 gives 23 on 2024-06-14 and 24 on 2024-06-15;
and a birth date in the current year or later yields a result ≤ 0 rather
than failing. -/
theorem age_lexicographic (p : Person) (today : SimpleDate) :
    (p.age today =
      today.year - p.birthDay.year -
        (if today.month < p.birthDay.month ∨
            (today.month = p.birthDay.month ∧ today.day < p.birthDay.day)
         then 1 else 0)) ∧
    personEx.age { year := 2024, month := 5, day := 14 } = 23 ∧
    personEx.age { year := 2024, month := 5, day := 15 } = 24 ∧
    (today.year ≤ p.birthDay.year → p.age today ≤ 0) := by
  refine ⟨?_, by decide, by decide, fun hf => ?_⟩
  · simp only [Person.age]
    split_ifs with h1 h2 <;> omega
  · simp only [Person.age]
    split_ifs with h1 <;> omega

/-- Witness for C7: the future-birth-date case at a concrete person and
date (today 1999-01-01, birth 2000-06-15). -/
theorem age_lexicographic_witness :
    ({ year := 1999, month := 0, day := 1 } : SimpleDate).year ≤
        personEx.birthDay.year ∧
      personEx.age { year := 1999, month := 0, day := 1 } ≤ 0 :=
  ⟨by decide,
    (age_lexicographic personEx
          { year := 1999, month := 0, day := 1 }).2.2.2 (by decide)⟩

/-- Helper: `find?` returns the head of the filtered list, that is, the
first element satisfying the predicate, in list order. -/
theorem find_eq_head_filter {α} (p : α → Bool) (l : List α) :
    l.find? p = (l.filter p).head? := by
  induction l with
  | nil => rfl
  | cons a t ih =>
    by_cases h : p a
    · rw [List.find?_cons_of_pos _ h, List.filter_cons_of_pos h,
        List.head?_cons]
    · rw [List.find?_cons_of_neg _ h, List.filter_cons_of_neg h, ih]

/-- C8: `findGroupByCourse` returns the first group in insertion order whose
course is the given course, and `none` exactly when no group references that
course. -/
theorem findGroupByCourse_first (u : University) (course : Course) :
    u.findGroupByCourse course =
      (u.groups.filter (fun group => group.course == course)).head? ∧
    (u.findGroupByCourse course = none ↔
      ∀ group ∈ u.groups, group.course ≠ course) := by
  refine ⟨find_eq_head_filter _ _, ?_⟩
  unfold University.findGroupByCourse
  rw [List.find?_eq_none]
  simp

/-- On a list whose members all fail the predicate, followed by one element
satisfying it, `findIdx?` started at `i` finds index `i +` the list
length. -/
theorem findIdx_append_singleton {α} (p : α → Bool) (a : α)
    (ha : p a = true) :
    ∀ l : List α, (∀ x ∈ l, p x = false) → ∀ i : Nat,
      (l ++ [a]).findIdx? p i = some (i + l.length) := by
  intro l
  induction l with
  | nil => intro _ i; simp [List.findIdx?_cons, ha]
  | cons b t ih =>
    intro hl i
    have hb : p b = false := hl b (by simp)
    rw [List.cons_append, List.findIdx?_cons, if_neg (by simp [hb])]
    rw [ih (fun x hx => hl x (by simp [hx])) (i + 1)]
    exact congrArg some (by simp; omega)

/-- Removing the element at index `length l` from `l ++ [a]` gives back
`l`. -/
theorem eraseIdx_append_length {α} (l : List α) (a : α) :
    (l ++ [a]).eraseIdx l.length = l := by
  induction l with
  | nil => rfl
  | cons b t ih =>
    rw [List.cons_append, List.length_cons, List.eraseIdx_cons_succ, ih]

/-- C10: on a group whose roster has no student with the id of `s`, adding
`s` and then removing by `s.id` both succeed and restore the original
group. -/
theorem addStudent_remove_roundtrip (g : Group) (s : Student)
    (h : ∀ t ∈ g.students, t.id ≠ s.id) :
    (g.addStudent s).2 = none ∧
    ((g.addStudent s).1.removeStudentById s.id).2 = none ∧
    ((g.addStudent s).1.removeStudentById s.id).1 = g := by
  have hs : s ∉ g.students := fun hmem => h s hmem rfl
  have hadd : g.addStudent s =
      ({ g with students := g.students ++ [s] }, none) := by
    simp [Group.addStudent, hs]
  have hfind : (g.students ++ [s]).findIdx?
      (fun t => t.id == s.id) = some g.students.length := by
    simpa using
      findIdx_append_singleton (fun t : Student => t.id == s.id) s
        (by simp) g.students (fun x hx => by simp [h x hx]) 0
  refine ⟨by rw [hadd], ?_, ?_⟩ <;>
    rw [hadd] <;>
      simp [Group.removeStudentById, hfind, eraseIdx_append_length]

/-- Witness for C10: a concrete group holding one student with id 2 and a
student with id 1. -/
theorem addStudent_remove_roundtrip_witness :
    (∀ t ∈ groupEx1.students, t.id ≠ studentEx.id) ∧
    (groupEx1.addStudent studentEx).2 = none ∧
    ((groupEx1.addStudent studentEx).1.removeStudentById
        studentEx.id).2 = none ∧
    ((groupEx1.addStudent studentEx).1.removeStudentById
        studentEx.id).1 = groupEx1 :=
  ⟨by decide,
    (addStudent_remove_roundtrip groupEx1 studentEx (by decide)).1,
    (addStudent_remove_roundtrip groupEx1 studentEx (by decide)).2.1,
    (addStudent_remove_roundtrip groupEx1 studentEx (by decide)).2.2⟩

end UnivTs
